import Mathlib

/-!
# Verification of the `monk` Monkey interpreter (Python)

Shallow embedding of the `monk` interpreter sources:
`monk/token.py`, `monk/lexer.py`, `monk/ast.py`, `monk/parser.py`,
`monk/object.py`, `monk/evaluator.py`, `monk/__main__.py`.

Conventions used throughout:
* Python exceptions are modelled by the `PyErr` inductive and `Except`.
* Python's unbounded `int` is `Int`; `//` is `Int.fdiv` (floor division),
  raising `ZeroDivisionError` on a zero divisor exactly as the host does.
* The recursive interpreter and the recursive-descent parser take a fuel
  argument bounding recursion depth; `PyErr.FuelExhausted` is distinct from
  every host exception and never arises at the fuel values used below.
* `Array`/`ArrayLiteral` are imported by `monk/evaluator.py` but absent from
  `monk/object.py` and `monk/ast.py` in this source tree, so they are
  uninhabited here; the array branches of the built-ins are unreachable and
  are omitted, with the surrounding logic kept verbatim.
-/

/-! ## monk/token.py -/

/-- `TokenType`, from `monk/token.py`. Member names are kept verbatim. -/
inductive TokenType where
  | ILLEGAL
  | END_OF_FILE
  | IDENTIFIER
  | INTEGER
  | STRING
  | ASSIGN
  | PLUS
  | MINUS
  | SLASH
  | ASTERISK
  | BANG
  | COMMA
  | SEMICOLON
  | LEFT_PAREN
  | RIGHT_PAREN
  | LEFT_BRACE
  | RIGHT_BRACE
  | LEFT_BRACKET
  | RIGHT_BRACKET
  | LESSER_THAN
  | GREATER_THAN
  | EQUAL
  | NOT_EQUAL
  | TRUE
  | FALSE
  | FUNCTION
  | LET
  | IF
  | ELSE
  | RETURN
deriving DecidableEq, Repr

/-- The Python member name of a `TokenType`, as used by the default
`Enum.__str__` (`monk.token.TokenType` does not override `__str__`). -/
def tokenTypeName : TokenType → String
  | .ILLEGAL => "ILLEGAL"
  | .END_OF_FILE => "END_OF_FILE"
  | .IDENTIFIER => "IDENTIFIER"
  | .INTEGER => "INTEGER"
  | .STRING => "STRING"
  | .ASSIGN => "ASSIGN"
  | .PLUS => "PLUS"
  | .MINUS => "MINUS"
  | .SLASH => "SLASH"
  | .ASTERISK => "ASTERISK"
  | .BANG => "BANG"
  | .COMMA => "COMMA"
  | .SEMICOLON => "SEMICOLON"
  | .LEFT_PAREN => "LEFT_PAREN"
  | .RIGHT_PAREN => "RIGHT_PAREN"
  | .LEFT_BRACE => "LEFT_BRACE"
  | .RIGHT_BRACE => "RIGHT_BRACE"
  | .LEFT_BRACKET => "LEFT_BRACKET"
  | .RIGHT_BRACKET => "RIGHT_BRACKET"
  | .LESSER_THAN => "LESSER_THAN"
  | .GREATER_THAN => "GREATER_THAN"
  | .EQUAL => "EQUAL"
  | .NOT_EQUAL => "NOT_EQUAL"
  | .TRUE => "TRUE"
  | .FALSE => "FALSE"
  | .FUNCTION => "FUNCTION"
  | .LET => "LET"
  | .IF => "IF"
  | .ELSE => "ELSE"
  | .RETURN => "RETURN"

/-- `str(t)` for a `TokenType`: Python's default `Enum.__str__`,
`"TokenType.<NAME>"` (used in the parser's error messages). -/
def tokenTypeStr (t : TokenType) : String :=
  "TokenType." ++ tokenTypeName t

/-- `Token`, from `monk/token.py`: a pair of kind and literal text. -/
structure Token where
  type : TokenType
  literal : String
deriving DecidableEq, Repr

/-- `lookup_ident`, from `monk/token.py`: keyword promotion. -/
def lookup_ident (ident : String) : TokenType :=
  match ident with
  | "fn" => TokenType.FUNCTION
  | "let" => TokenType.LET
  | "true" => TokenType.TRUE
  | "false" => TokenType.FALSE
  | "if" => TokenType.IF
  | "else" => TokenType.ELSE
  | "return" => TokenType.RETURN
  | _ => TokenType.IDENTIFIER

/-! ## monk/lexer.py

The Python lexer walks the source with a cursor (`_pos`, `_current_char`,
`_next_char`).  Here the state is the suffix of the source starting at the
current character; `_advance` is dropping the head.  The host character
predicates `str.isalpha`, `str.isdigit`, `str.isalnum` and `str.isspace`
are Unicode-aware in Python; they are modelled exactly on the ASCII range,
plus the representative non-ASCII letter `é` (U+00E9, alphabetic in
Unicode) for `isalpha`/`isalnum`, which is the only non-ASCII character
appearing in this development. -/

/-- Python `str.isspace` on a single character (ASCII cases). -/
def pyIsSpace (c : Char) : Bool :=
  c = ' ' || c = '\t' || c = '\n' || c = '\r' || c = '\x0b' || c = '\x0c'

/-- Python `str.isalpha` on a single character: ASCII letters, plus the
representative Unicode letter `é` (U+00E9) — Python's test accepts every
Unicode alphabetic character, and `é` is the only non-ASCII one used here.
Note `'_'.isalpha()` is `False` in Python, so `_` is not accepted. -/
def pyIsAlpha (c : Char) : Bool :=
  ('a' ≤ c && c ≤ 'z') || ('A' ≤ c && c ≤ 'Z') || c = 'é'

/-- Python `str.isdigit` on a single character (ASCII digits; Python also
accepts non-ASCII decimal digits, none of which appear in this file). -/
def pyIsDigit (c : Char) : Bool :=
  '0' ≤ c && c ≤ '9'

/-- Python `str.isalnum` on a single character: alphabetic or digit.
Note `'_'.isalnum()` is `False` in Python. -/
def pyIsAlnum (c : Char) : Bool :=
  pyIsAlpha c || pyIsDigit c

/-- `_SINGLE_CHAR_TOKEN_TYPE_MAP`, from `monk/lexer.py`.  Note `[` and `]`
are absent, matching the source. -/
def singleCharTokenTypeMap (c : Char) : Option TokenType :=
  if c = '=' then some TokenType.ASSIGN
  else if c = '+' then some TokenType.PLUS
  else if c = '-' then some TokenType.MINUS
  else if c = '*' then some TokenType.ASTERISK
  else if c = '/' then some TokenType.SLASH
  else if c = '(' then some TokenType.LEFT_PAREN
  else if c = ')' then some TokenType.RIGHT_PAREN
  else if c = '\x7b' then some TokenType.LEFT_BRACE
  else if c = '\x7d' then some TokenType.RIGHT_BRACE
  else if c = ';' then some TokenType.SEMICOLON
  else if c = ',' then some TokenType.COMMA
  else if c = '<' then some TokenType.LESSER_THAN
  else if c = '>' then some TokenType.GREATER_THAN
  else if c = '!' then some TokenType.BANG
  else none

/-- `Lexer.__next__`, from `monk/lexer.py`, acting on the suffix of the
source that starts at the current character.  Returns the produced token
and the suffix starting at the character the cursor rests on for the next
call (the method ends with one `_advance()` except in the end-of-file case,
which returns early).

Branch order matches the Python `match`: `==`, `!=`, string, single-char
map, identifier, integer, end of input, illegal.  Note the two-character
operator branches advance twice *and* fall through to the trailing
`_advance()`, consuming three characters in total — faithful to the source.

`_eat_ident` / `_eat_int` extend the run while `_next_char` satisfies the
predicate, so the literal is the head plus the matching prefix of the rest;
`_eat_string` reads verbatim up to the closing quote or end of input. -/
def lexNext (cs0 : List Char) : Token × List Char :=
  match cs0.dropWhile pyIsSpace with
  | [] => (⟨TokenType.END_OF_FILE, ""⟩, [])
  | c :: rest =>
    if c = '=' && rest.head? = some '=' then
      (⟨TokenType.EQUAL, "=="⟩, rest.drop 2)
    else if c = '!' && rest.head? = some '=' then
      (⟨TokenType.NOT_EQUAL, "!="⟩, rest.drop 2)
    else if c = '\"' then
      (⟨TokenType.STRING, String.mk (rest.takeWhile (fun d => d ≠ '\"'))⟩,
        (rest.dropWhile (fun d => d ≠ '\"')).drop 1)
    else
      match singleCharTokenTypeMap c with
      | some t => (⟨t, String.mk [c]⟩, rest)
      | none =>
        if pyIsAlpha c then
          let lit := String.mk (c :: rest.takeWhile pyIsAlnum)
          (⟨lookup_ident lit, lit⟩, rest.drop (rest.takeWhile pyIsAlnum).length)
        else if pyIsDigit c then
          let lit := String.mk (c :: rest.takeWhile pyIsDigit)
          (⟨TokenType.INTEGER, lit⟩, rest.drop (rest.takeWhile pyIsDigit).length)
        else
          (⟨TokenType.ILLEGAL, String.mk [c]⟩, rest)

/-- Iterate `lexNext` until the `END_OF_FILE` token, collecting the stream
(the terminating `END_OF_FILE` included).  Fuel bounds the number of
tokens; each non-EOF call consumes at least one character, so
`code.length + 1` steps always suffice. -/
def lexLoop : Nat → List Char → List Token
  | 0, _ => []
  | fuel + 1, cs =>
    let (t, cs') := lexNext cs
    if t.type = TokenType.END_OF_FILE then [t] else t :: lexLoop fuel cs'

/-- The full token stream of a source text, `END_OF_FILE` terminated:
iterated `next(lexer)` as the parser's `TokenIterator` performs it. -/
def lexAll (code : String) : List Token :=
  lexLoop (code.length + 1) code.toList

/-! ## monk/ast.py

AST node classes.  Each node stores the token that started it, exactly as
the Python dataclasses do, so that dataclass equality (`==` on `Program`)
is structural equality here. -/

/-- `Identifier`, from `monk/ast.py`. -/
structure Identifier where
  token : Token
  value : String
deriving DecidableEq, Repr

mutual

/-- Expression nodes from `monk/ast.py` (constructor names are the Python
class names).  `ArrayLiteral` is absent from `monk/ast.py` in this tree. -/
inductive Expr where
  | identifier (i : Identifier)
  | IntegerLiteral (token : Token) (value : Int)
  | BooleanLiteral (token : Token) (value : Bool)
  | StringLiteral (token : Token) (value : String)
  | PrefixExpression (token : Token) (operator : String) (right : Expr)
  | InfixExpression (token : Token) (left : Expr) (operator : String) (right : Expr)
  | IfExpression (token : Token) (condition : Expr) (consequence : Block)
      (alternative : Option Block)
  | FunctionLiteral (token : Token) (parameters : List Identifier) (body : Block)
  | CallExpression (token : Token) (function : Expr) (arguments : List Expr)

/-- Statement nodes from `monk/ast.py`. -/
inductive Stmt where
  | LetStatement (token : Token) (name : Identifier) (value : Expr)
  | ReturnStatement (token : Token) (value : Expr)
  | ExpressionStatement (token : Token) (expression : Expr)

/-- `BlockStatement`, from `monk/ast.py`. -/
inductive Block where
  | mk (token : Token) (statements : List Stmt)

end

/-- `Program`, from `monk/ast.py`. -/
structure Program where
  statements : List Stmt

/-- The statements of a `Block`. -/
def Block.statements : Block → List Stmt
  | .mk _ stmts => stmts

/-- `join_commas`, from `monk/utils.py`, applied after `str` has been
mapped over the sequence. -/
def joinCommas (xs : List String) : String :=
  String.intercalate ", " xs

/-! ### Python `repr` of AST dataclasses

`FunctionLiteral.__str__` interpolates `{self.token_literal}` — the bound
method object, not a call — so Python renders
`<bound method FunctionLiteral.token_literal of <dataclass repr>>`.
The dataclass `repr` is reproduced verbatim below (string fields contain
no quotes or backslashes in any input considered, so Python's `repr` of
them is the text in single quotes). -/

/-- Python `repr` of a string without quote/backslash characters. -/
def pyReprStr (s : String) : String :=
  "'" ++ s ++ "'"

/-- The `value` of each `TokenType` member, from `monk/token.py` (used by
the default `Enum.__repr__`). -/
def tokenTypeValue : TokenType → String
  | .ILLEGAL => "ILLEGAL"
  | .END_OF_FILE => "END_OF_FILE"
  | .IDENTIFIER => "IDENTIFIER"
  | .INTEGER => "INTEGER"
  | .STRING => "STRING"
  | .ASSIGN => "="
  | .PLUS => "+"
  | .MINUS => "-"
  | .SLASH => "/"
  | .ASTERISK => "*"
  | .BANG => "!"
  | .COMMA => ","
  | .SEMICOLON => ";"
  | .LEFT_PAREN => "("
  | .RIGHT_PAREN => ")"
  | .LEFT_BRACE => "\x7b"
  | .RIGHT_BRACE => "\x7d"
  | .LEFT_BRACKET => "["
  | .RIGHT_BRACKET => "]"
  | .LESSER_THAN => "<"
  | .GREATER_THAN => ">"
  | .EQUAL => "=="
  | .NOT_EQUAL => "!="
  | .TRUE => "true"
  | .FALSE => "false"
  | .FUNCTION => "fn"
  | .LET => "let"
  | .IF => "if"
  | .ELSE => "else"
  | .RETURN => "return"

/-- Python `repr` of a `Token` dataclass (its `type` field rendered by the
default `Enum.__repr__`, `<TokenType.NAME: 'value'>`). -/
def tokenRepr (t : Token) : String :=
  "Token(type=<TokenType." ++ tokenTypeName t.type ++ ": "
    ++ pyReprStr (tokenTypeValue t.type) ++ ">, literal=" ++ pyReprStr t.literal ++ ")"

/-- Python `repr` of an `Identifier` dataclass. -/
def identRepr (i : Identifier) : String :=
  "Identifier(token=" ++ tokenRepr i.token ++ ", value=" ++ pyReprStr i.value ++ ")"

/-- Python `repr` of a list, given the `repr`s of its members. -/
def listRepr (xs : List String) : String :=
  "[" ++ String.intercalate ", " xs ++ "]"

mutual

/-- Python dataclass `repr` of an expression node. -/
def exprRepr : Expr → String
  | .identifier i => identRepr i
  | .IntegerLiteral tok v =>
      "IntegerLiteral(token=" ++ tokenRepr tok ++ ", value=" ++ toString v ++ ")"
  | .BooleanLiteral tok v =>
      "BooleanLiteral(token=" ++ tokenRepr tok ++ ", value="
        ++ (if v then "True" else "False") ++ ")"
  | .StringLiteral tok v =>
      "StringLiteral(token=" ++ tokenRepr tok ++ ", value=" ++ pyReprStr v ++ ")"
  | .PrefixExpression tok op r =>
      "PrefixExpression(token=" ++ tokenRepr tok ++ ", operator=" ++ pyReprStr op
        ++ ", right=" ++ exprRepr r ++ ")"
  | .InfixExpression tok l op r =>
      "InfixExpression(token=" ++ tokenRepr tok ++ ", left=" ++ exprRepr l
        ++ ", operator=" ++ pyReprStr op ++ ", right=" ++ exprRepr r ++ ")"
  | .IfExpression tok c cons alt =>
      "IfExpression(token=" ++ tokenRepr tok ++ ", condition=" ++ exprRepr c
        ++ ", consequence=" ++ blockRepr cons ++ ", alternative="
        ++ (match alt with | some a => blockRepr a | none => "None") ++ ")"
  | .FunctionLiteral tok ps body =>
      "FunctionLiteral(token=" ++ tokenRepr tok ++ ", parameters="
        ++ listRepr (ps.map identRepr) ++ ", body=" ++ blockRepr body ++ ")"
  | .CallExpression tok fn args =>
      "CallExpression(token=" ++ tokenRepr tok ++ ", function=" ++ exprRepr fn
        ++ ", arguments=" ++ listRepr (exprListReprs args) ++ ")"

/-- `repr` mapped over a list of expressions. -/
def exprListReprs : List Expr → List String
  | [] => []
  | e :: es => exprRepr e :: exprListReprs es

/-- Python dataclass `repr` of a statement node. -/
def stmtRepr : Stmt → String
  | .LetStatement tok name value =>
      "LetStatement(token=" ++ tokenRepr tok ++ ", name=" ++ identRepr name
        ++ ", value=" ++ exprRepr value ++ ")"
  | .ReturnStatement tok value =>
      "ReturnStatement(token=" ++ tokenRepr tok ++ ", value=" ++ exprRepr value ++ ")"
  | .ExpressionStatement tok e =>
      "ExpressionStatement(token=" ++ tokenRepr tok ++ ", expression=" ++ exprRepr e ++ ")"

/-- `repr` mapped over a list of statements. -/
def stmtListReprs : List Stmt → List String
  | [] => []
  | s :: ss => stmtRepr s :: stmtListReprs ss

/-- Python dataclass `repr` of a `BlockStatement`. -/
def blockRepr : Block → String
  | .mk tok stmts =>
      "BlockStatement(token=" ++ tokenRepr tok ++ ", statements="
        ++ listRepr (stmtListReprs stmts) ++ ")"

end

/-! ### The `__str__` methods of `monk/ast.py` (canonical source form) -/

mutual

/-- `__str__` of expression nodes verbatim from `monk/ast.py`.  Note the
`FunctionLiteral` case: the source interpolates `{self.token_literal}`
without calling it, so the bound-method `repr` is printed. -/
def exprStr : Expr → String
  | .identifier i => i.value
  | .IntegerLiteral tok _ => tok.literal
  | .BooleanLiteral tok _ => tok.literal
  | .StringLiteral _ v => "\"" ++ v ++ "\""
  | .PrefixExpression _ op r => "(" ++ op ++ exprStr r ++ ")"
  | .InfixExpression _ l op r =>
      "(" ++ exprStr l ++ " " ++ op ++ " " ++ exprStr r ++ ")"
  | .IfExpression _ c cons alt =>
      let s := "if " ++ exprStr c ++ " " ++ blockStr cons
      match alt with
      | some a => s ++ " else " ++ blockStr a
      | none => s
  | .FunctionLiteral tok ps body =>
      "<bound method FunctionLiteral.token_literal of "
        ++ exprRepr (.FunctionLiteral tok ps body) ++ ">("
        ++ joinCommas (ps.map (fun i => i.value)) ++ ") " ++ blockStr body
  | .CallExpression _ fn args =>
      exprStr fn ++ "(" ++ joinCommas (exprListStrs args) ++ ")"

/-- `str` mapped over a list of expressions. -/
def exprListStrs : List Expr → List String
  | [] => []
  | e :: es => exprStr e :: exprListStrs es

/-- `__str__` of statement nodes verbatim from `monk/ast.py`.  Note
`ReturnStatement` prints no trailing semicolon. -/
def stmtStr : Stmt → String
  | .LetStatement tok name value =>
      tok.literal ++ " " ++ name.value ++ " = " ++ exprStr value ++ ";"
  | .ReturnStatement tok value => tok.literal ++ " " ++ exprStr value
  | .ExpressionStatement _ e => exprStr e ++ ";"

/-- `str` mapped over a list of statements. -/
def stmtListStrs : List Stmt → List String
  | [] => []
  | s :: ss => stmtStr s :: stmtListStrs ss

/-- `BlockStatement.__str__`. -/
def blockStr : Block → String
  | .mk _ stmts =>
      "\x7b\n    " ++ String.intercalate "\n    " (stmtListStrs stmts) ++ "\n\x7d"

end

/-- `Program.__str__`: statements joined by newlines. -/
def programStr (p : Program) : String :=
  String.intercalate "\n" (p.statements.map stmtStr)

/-! ## monk/parser.py

`Precedence` is an `IntEnum`; its members are used only through comparison,
so they are plain numerals here: LOWEST = 1, EQUALS = 2, LESSGREATER = 3,
SUM = 4, PRODUCT = 5, PREFIX = 6, CALL = 7. -/

/-- `_PRECEDENCES` lookup with the `Precedence.LOWEST` default used by
`_current_precedence` / `_next_precedence`. -/
def precedenceOf (t : TokenType) : Nat :=
  match t with
  | .EQUAL => 2
  | .NOT_EQUAL => 2
  | .LESSER_THAN => 3
  | .GREATER_THAN => 3
  | .PLUS => 4
  | .MINUS => 4
  | .SLASH => 5
  | .ASTERISK => 5
  | .LEFT_PAREN => 7
  | _ => 1

/-- Python exception kinds raised by the interpreter, plus the artificial
`FuelExhausted` marker for the recursion bound of this embedding (never a
behaviour of the source). -/
inductive PyErr where
  | TypeError (msg : String)
  | NameError (msg : String)
  | SyntaxError (msg : String)
  | ZeroDivisionError
  | IndexError
  | EOFError
  | FuelExhausted
deriving DecidableEq, Repr

/-- `TokenIterator` state, from `monk/parser.py`: the current token, the
peek token, and the not-yet-pulled remainder of the lexer's stream. -/
structure PState where
  current : Token
  next : Token
  rest : List Token
deriving DecidableEq, Repr

/-- Pull one more token from the (pre-lexed) stream; an exhausted lexer
keeps yielding `END_OF_FILE`, as `Lexer.__next__` does at end of input. -/
def pullToken : List Token → Token × List Token
  | [] => (⟨TokenType.END_OF_FILE, ""⟩, [])
  | t :: ts => (t, ts)

/-- `TokenIterator.advance`. -/
def advanceP (s : PState) : PState :=
  let (t, ts) := pullToken s.rest
  ⟨s.next, t, ts⟩

/-- `TokenIterator.__init__`: both slots start as `ILLEGAL` tokens and are
populated by two `advance` calls. -/
def initPState (ts : List Token) : PState :=
  advanceP (advanceP ⟨⟨TokenType.ILLEGAL, ""⟩, ⟨TokenType.ILLEGAL, ""⟩, ts⟩)

/-- `TokenIterator.expect_next`: advance past an expected token or raise
`SyntaxError` with the message built from the default `Enum.__str__`. -/
def expectNext (s : PState) (t : TokenType) : Except PyErr PState :=
  if s.next.type = t then
    Except.ok (advanceP s)
  else
    Except.error (.SyntaxError ("Expected next token to be " ++ tokenTypeStr t
      ++ ", got " ++ tokenTypeStr s.next.type))

/-- `Parser._parse_identifier`: an `Identifier` from the current token. -/
def parseIdentifierNode (s : PState) : Identifier :=
  ⟨s.current, s.current.literal⟩

/-- `int(...)` on the digit-only literals the lexer produces. -/
def strToInt (s : String) : Int :=
  Int.ofNat (s.toList.foldl (fun n c => 10 * n + (c.toNat - 48)) 0)

mutual

/-- The `while` loop of `Parser.parse_program`, carrying the statements
accumulated so far.  Fuel bounds recursion depth throughout the parser. -/
def parseProgramLoop : Nat → PState → List Stmt → Except PyErr (Program × PState)
  | 0, _, _ => Except.error .FuelExhausted
  | fuel + 1, s, acc =>
    if s.current.type = TokenType.END_OF_FILE then
      Except.ok (⟨acc⟩, s)
    else do
      let (stmt, s) ← parseStatement fuel s
      parseProgramLoop fuel (advanceP s) (acc ++ [stmt])

/-- `Parser._parse_statement`: dispatch on the current token kind. -/
def parseStatement : Nat → PState → Except PyErr (Stmt × PState)
  | 0, _ => Except.error .FuelExhausted
  | fuel + 1, s =>
    match s.current.type with
    | TokenType.LET => parseLetStatement fuel s
    | TokenType.RETURN => parseReturnStatement fuel s
    | _ => parseExpressionStatement fuel s

/-- `Parser._parse_let_statement`. -/
def parseLetStatement : Nat → PState → Except PyErr (Stmt × PState)
  | 0, _ => Except.error .FuelExhausted
  | fuel + 1, s => do
    let token := s.current
    let s ← expectNext s TokenType.IDENTIFIER
    let name := parseIdentifierNode s
    let s ← expectNext s TokenType.ASSIGN
    let s := advanceP s
    let (value, s) ← parseExpression fuel 1 s
    let s ← expectNext s TokenType.SEMICOLON
    Except.ok (Stmt.LetStatement token name value, s)

/-- `Parser._parse_return_statement`. -/
def parseReturnStatement : Nat → PState → Except PyErr (Stmt × PState)
  | 0, _ => Except.error .FuelExhausted
  | fuel + 1, s => do
    let token := s.current
    let s := advanceP s
    let (value, s) ← parseExpression fuel 1 s
    let s ← expectNext s TokenType.SEMICOLON
    Except.ok (Stmt.ReturnStatement token value, s)

/-- `Parser._parse_expression_statement`: a trailing semicolon is optional
and consumed if present; the node stores the then-current token. -/
def parseExpressionStatement : Nat → PState → Except PyErr (Stmt × PState)
  | 0, _ => Except.error .FuelExhausted
  | fuel + 1, s => do
    let (expr, s) ← parseExpression fuel 1 s
    let s := if s.next.type = TokenType.SEMICOLON then advanceP s else s
    Except.ok (Stmt.ExpressionStatement s.current expr, s)

/-- `Parser._parse_expression`: prefix dispatch on the current token
(`_prefix_parse_fns`), then the Pratt loop. -/
def parseExpression : Nat → Nat → PState → Except PyErr (Expr × PState)
  | 0, _, _ => Except.error .FuelExhausted
  | fuel + 1, prec, s => do
    let (left, s) ←
      match s.current.type with
      | TokenType.IDENTIFIER => Except.ok (Expr.identifier (parseIdentifierNode s), s)
      | TokenType.INTEGER =>
          Except.ok (Expr.IntegerLiteral s.current (strToInt s.current.literal), s)
      | TokenType.STRING => Except.ok (Expr.StringLiteral s.current s.current.literal, s)
      | TokenType.FUNCTION => parseFunctionLiteral fuel s
      | TokenType.BANG => parsePrefixExpression fuel s
      | TokenType.MINUS => parsePrefixExpression fuel s
      | TokenType.TRUE =>
          Except.ok (Expr.BooleanLiteral s.current (s.current.type = TokenType.TRUE), s)
      | TokenType.FALSE =>
          Except.ok (Expr.BooleanLiteral s.current (s.current.type = TokenType.TRUE), s)
      | TokenType.LEFT_PAREN => parseGroupedExpression fuel s
      | TokenType.IF => parseIfExpression fuel s
      | t => Except.error (.SyntaxError ("No prefix parse function for " ++ tokenTypeStr t))
    parseInfixLoop fuel prec left s

/-- The `while` loop of `Parser._parse_expression`: continue while the
peek token is not a semicolon and binds tighter than `prec`; stop when no
infix parselet is registered (`_infix_parse_fns`). -/
def parseInfixLoop : Nat → Nat → Expr → PState → Except PyErr (Expr × PState)
  | 0, _, _, _ => Except.error .FuelExhausted
  | fuel + 1, prec, left, s =>
    if s.next.type ≠ TokenType.SEMICOLON ∧ prec < precedenceOf s.next.type then
      match s.next.type with
      | TokenType.EQUAL | TokenType.NOT_EQUAL | TokenType.LESSER_THAN
      | TokenType.GREATER_THAN | TokenType.PLUS | TokenType.MINUS
      | TokenType.SLASH | TokenType.ASTERISK => do
          let s := advanceP s
          let (e, s) ← parseInfixExpression fuel left s
          parseInfixLoop fuel prec e s
      | TokenType.LEFT_PAREN => do
          let s := advanceP s
          let (e, s) ← parseCallExpression fuel left s
          parseInfixLoop fuel prec e s
      | _ => Except.ok (left, s)
    else
      Except.ok (left, s)

/-- `Parser._parse_prefix_expression` (for `!` and unary `-`): the right
operand is parsed at precedence `PREFIX` = 6. -/
def parsePrefixExpression : Nat → PState → Except PyErr (Expr × PState)
  | 0, _ => Except.error .FuelExhausted
  | fuel + 1, s => do
    let token := s.current
    let s := advanceP s
    let (right, s) ← parseExpression fuel 6 s
    Except.ok (Expr.PrefixExpression token token.literal right, s)

/-- `Parser._parse_infix_expression`: left-associative because the right
operand is parsed at the operator's own precedence. -/
def parseInfixExpression : Nat → Expr → PState → Except PyErr (Expr × PState)
  | 0, _, _ => Except.error .FuelExhausted
  | fuel + 1, left, s => do
    let token := s.current
    let precedence := precedenceOf s.current.type
    let s := advanceP s
    let (right, s) ← parseExpression fuel precedence s
    Except.ok (Expr.InfixExpression token left token.literal right, s)

/-- `Parser._parse_grouped_expression`. -/
def parseGroupedExpression : Nat → PState → Except PyErr (Expr × PState)
  | 0, _ => Except.error .FuelExhausted
  | fuel + 1, s => do
    let s := advanceP s
    let (expr, s) ← parseExpression fuel 1 s
    let s ← expectNext s TokenType.RIGHT_PAREN
    Except.ok (expr, s)

/-- `Parser._parse_if_expression`. -/
def parseIfExpression : Nat → PState → Except PyErr (Expr × PState)
  | 0, _ => Except.error .FuelExhausted
  | fuel + 1, s => do
    let token := s.current
    let s ← expectNext s TokenType.LEFT_PAREN
    let s := advanceP s
    let (condition, s) ← parseExpression fuel 1 s
    let s ← expectNext s TokenType.RIGHT_PAREN
    let s ← expectNext s TokenType.LEFT_BRACE
    let (consequence, s) ← parseBlockStatement fuel s
    if s.next.type = TokenType.ELSE then do
      let s := advanceP s
      let s ← expectNext s TokenType.LEFT_BRACE
      let (alternative, s) ← parseBlockStatement fuel s
      Except.ok (Expr.IfExpression token condition consequence (some alternative), s)
    else
      Except.ok (Expr.IfExpression token condition consequence none, s)

/-- `Parser._parse_block_statement`: statements until `}` or `EOF`. -/
def parseBlockStatement : Nat → PState → Except PyErr (Block × PState)
  | 0, _ => Except.error .FuelExhausted
  | fuel + 1, s => do
    let token := s.current
    let s := advanceP s
    let (stmts, s) ← parseBlockLoop fuel s []
    Except.ok (Block.mk token stmts, s)

/-- The `while` loop of `Parser._parse_block_statement`. -/
def parseBlockLoop : Nat → PState → List Stmt → Except PyErr (List Stmt × PState)
  | 0, _, _ => Except.error .FuelExhausted
  | fuel + 1, s, acc =>
    if s.current.type = TokenType.RIGHT_BRACE ∨ s.current.type = TokenType.END_OF_FILE then
      Except.ok (acc, s)
    else do
      let (stmt, s) ← parseStatement fuel s
      parseBlockLoop fuel (advanceP s) (acc ++ [stmt])

/-- `Parser._parse_function_literal`. -/
def parseFunctionLiteral : Nat → PState → Except PyErr (Expr × PState)
  | 0, _ => Except.error .FuelExhausted
  | fuel + 1, s => do
    let token := s.current
    let s ← expectNext s TokenType.LEFT_PAREN
    let (params, s) ← parseFunctionParameters fuel s
    let s ← expectNext s TokenType.LEFT_BRACE
    let (body, s) ← parseBlockStatement fuel s
    Except.ok (Expr.FunctionLiteral token params body, s)

/-- `Parser._parse_function_parameters`. -/
def parseFunctionParameters : Nat → PState → Except PyErr (List Identifier × PState)
  | 0, _ => Except.error .FuelExhausted
  | fuel + 1, s =>
    if s.next.type = TokenType.RIGHT_PAREN then
      Except.ok ([], advanceP s)
    else do
      let s := advanceP s
      let (params, s) ← parseParamsLoop fuel s [parseIdentifierNode s]
      let s ← expectNext s TokenType.RIGHT_PAREN
      Except.ok (params, s)

/-- The comma `while` loop of `Parser._parse_function_parameters`. -/
def parseParamsLoop : Nat → PState → List Identifier → Except PyErr (List Identifier × PState)
  | 0, _, _ => Except.error .FuelExhausted
  | fuel + 1, s, acc =>
    if s.next.type = TokenType.COMMA then
      let s := advanceP (advanceP s)
      parseParamsLoop fuel s (acc ++ [parseIdentifierNode s])
    else
      Except.ok (acc, s)

/-- `Parser._parse_call_expression`: the callee must be an `Identifier` or
`FunctionLiteral`, otherwise `TypeError`. -/
def parseCallExpression : Nat → Expr → PState → Except PyErr (Expr × PState)
  | 0, _, _ => Except.error .FuelExhausted
  | fuel + 1, fn, s =>
    match fn with
    | Expr.identifier _ | Expr.FunctionLiteral _ _ _ => do
        let token := s.current
        let (args, s) ← parseCallArguments fuel s
        Except.ok (Expr.CallExpression token fn args, s)
    | _ =>
        Except.error (.TypeError "Expected identifier or function literal for function call")

/-- `Parser._parse_call_arguments`. -/
def parseCallArguments : Nat → PState → Except PyErr (List Expr × PState)
  | 0, _ => Except.error .FuelExhausted
  | fuel + 1, s =>
    if s.next.type = TokenType.RIGHT_PAREN then
      Except.ok ([], advanceP s)
    else do
      let s := advanceP s
      let (arg, s) ← parseExpression fuel 1 s
      let (args, s) ← parseArgsLoop fuel s [arg]
      let s ← expectNext s TokenType.RIGHT_PAREN
      Except.ok (args, s)

/-- The comma `while` loop of `Parser._parse_call_arguments`. -/
def parseArgsLoop : Nat → PState → List Expr → Except PyErr (List Expr × PState)
  | 0, _, _ => Except.error .FuelExhausted
  | fuel + 1, s, acc =>
    if s.next.type = TokenType.COMMA then do
      let s := advanceP (advanceP s)
      let (arg, s) ← parseExpression fuel 1 s
      parseArgsLoop fuel s (acc ++ [arg])
    else
      Except.ok (acc, s)

end

/-- Fuel for parsing and evaluating the concrete programs below: far more
than their recursion depth ever needs. -/
def defaultFuel : Nat := 1000

/-- `Parser(Lexer(code)).parse_program()`: the whole front end. -/
def parse (code : String) : Except PyErr Program :=
  (parseProgramLoop defaultFuel (initPState (lexAll code)) []).map Prod.fst

/-! ## monk/object.py

Runtime values.  `Environment` is a plain mutable class in the source;
environments here live in an arena (the `Store`), and a `Function` value
holds the arena index of its captured environment — index equality models
Python object identity for environments.  `Array` is absent from
`monk/object.py` in this tree (see the header note). -/

/-- Names of the native functions in the `builtins` registry of
`monk/evaluator.py`.  A `Builtin` dataclass holds one function object, and
dataclass equality on `Builtin` is equality of these. -/
inductive BuiltinName where
  | len
  | puts
  | input
  | first
  | last
  | rest
  | push
deriving DecidableEq, Repr

/-- `ObjectType`, from `monk/object.py` (no `ARRAY` member exists). -/
inductive ObjectType where
  | INTEGER
  | BOOLEAN
  | NULL
  | RETURN_VALUE
  | FUNCTION
  | STRING
  | BUILTIN
deriving DecidableEq, Repr

/-- `ObjectType.__str__` is overridden to return the member's value. -/
def objectTypeStr : ObjectType → String
  | .INTEGER => "INTEGER"
  | .BOOLEAN => "BOOLEAN"
  | .NULL => "NULL"
  | .RETURN_VALUE => "RETURN_VALUE"
  | .FUNCTION => "FUNCTION"
  | .STRING => "STRING"
  | .BUILTIN => "BUILTIN"

/-- The `Object` subclasses of `monk/object.py` (constructor names are the
Python class names; `Function.environment` is an arena index). -/
inductive Object where
  | Integer (value : Int)
  | Boolean (value : Bool)
  | Null
  | ReturnValue (value : Object)
  | Function (parameters : List Identifier) (body : Block) (environment : Nat)
  | String (value : String)
  | Builtin (function : BuiltinName)

/-- The `type` property of each `Object` subclass. -/
def Object.type : Object → ObjectType
  | .Integer _ => .INTEGER
  | .Boolean _ => .BOOLEAN
  | .Null => .NULL
  | .ReturnValue _ => .RETURN_VALUE
  | .Function _ _ _ => .FUNCTION
  | .String _ => .STRING
  | .Builtin _ => .BUILTIN

/-- The `__str__` methods of `monk/object.py`.  Strings print raw (no
quotes); booleans print `str(value).lower()`; a `ReturnValue` delegates to
its payload; a `Function` prints `fn(params) body`. -/
def pyStr : Object → String
  | .Integer v => toString v
  | .Boolean b => if b then "true" else "false"
  | .Null => "null"
  | .ReturnValue v => pyStr v
  | .Function ps body _ =>
      "fn(" ++ joinCommas (ps.map (fun i => i.value)) ++ ") " ++ blockStr body
  | .String s => s
  | .Builtin _ => "builtin function"

/-- One `Environment`: its own name map (insertion-ordered, models the
Python `dict`) and the optional outer environment, from `monk/object.py`. -/
structure EnvFrame where
  map : List (String × Object)
  outer : Option Nat

/-- The mutable world: the environment arena plus the process's standard
output lines and pending standard-input lines (for `puts` / `input` and
the entry point's `print`). -/
structure Store where
  envs : List EnvFrame
  stdout : List String
  stdin : List String

/-- The single top-level `Environment()` created by `monk/__main__.py`,
with empty I/O. -/
def emptyStore : Store :=
  ⟨[⟨[], none⟩], [], []⟩

/-- `dict.get` on an insertion-ordered association list. -/
def assocGet : List (String × Object) → String → Option Object
  | [], _ => none
  | (k, v) :: rest, name => if k = name then some v else assocGet rest name

/-- `dict.__setitem__`: overwrite an existing key in place, else append. -/
def assocSet : List (String × Object) → String → Object → List (String × Object)
  | [], name, obj => [(name, obj)]
  | (k, v) :: rest, name, obj =>
    if k = name then (k, obj) :: rest else (k, v) :: assocSet rest name obj

/-- `Environment.get`, from `monk/object.py` (lines 169-170): consults
ONLY this environment's own map — it does not walk the outer chain. -/
def envGet (st : Store) (env : Nat) (name : String) : Option Object :=
  match st.envs.get? env with
  | some frame => assocGet frame.map name
  | none => none

/-- `Environment.__getitem__`, from `monk/object.py` (lines 156-164): own
map first, then the outer chain, else `KeyError`.  (The evaluator never
calls this method — it calls `Environment.get` — see the theorems on
claim C1.)  Fuel bounds the walk; the chain is acyclic by construction. -/
def envGetItem (st : Store) (fuel : Nat) (env : Nat) (name : String) : Option Object :=
  match fuel with
  | 0 => none
  | fuel + 1 =>
    match st.envs.get? env with
    | some frame =>
      match assocGet frame.map name with
      | some v => some v
      | none =>
        match frame.outer with
        | some out => envGetItem st fuel out name
        | none => none
    | none => none

/-- Update the frame at one arena index, leaving the rest unchanged. -/
def setFrameAt : List EnvFrame → Nat → String → Object → List EnvFrame
  | [], _, _, _ => []
  | f :: fs, 0, name, obj => { f with map := assocSet f.map name obj } :: fs
  | f :: fs, n + 1, name, obj => f :: setFrameAt fs n name obj

/-- `Environment.__setitem__`: always writes to this frame's own map. -/
def envSet (st : Store) (env : Nat) (name : String) (obj : Object) : Store :=
  { st with envs := setFrameAt st.envs env name obj }

/-- `Environment(outer)`: allocate a fresh frame inheriting from `outer`;
returns its arena index. -/
def envNew (st : Store) (outer : Option Nat) : Nat × Store :=
  (st.envs.length, { st with envs := st.envs ++ [⟨[], outer⟩] })

/-! ## monk/evaluator.py -/

/-- The canonical `NULL` singleton of `monk/evaluator.py`. -/
def NULL : Object := Object.Null

/-- The canonical `TRUE` singleton of `monk/evaluator.py`. -/
def TRUE : Object := Object.Boolean true

/-- The canonical `FALSE` singleton of `monk/evaluator.py`. -/
def FALSE : Object := Object.Boolean false

/-- The `builtins` registry of `monk/evaluator.py`: `dict.get` by name. -/
def builtinsGet (name : String) : Option BuiltinName :=
  match name with
  | "len" => some .len
  | "puts" => some .puts
  | "input" => some .input
  | "first" => some .first
  | "last" => some .last
  | "rest" => some .rest
  | "push" => some .push
  | _ => none

/-- `builtin_len`: arity check first, then the `String | Array` check
(`Array` is uninhabited here, so only the `String` branch is live).
Python's `len` on a string counts characters. -/
def builtinLen (args : List Object) (st : Store) : Except PyErr (Object × Store) :=
  match args with
  | [a] =>
    match a with
    | .String s => Except.ok (.Integer s.length, st)
    | _ => Except.error (.TypeError ("len takes a string or an array, got "
        ++ objectTypeStr a.type))
  | _ => Except.error (.TypeError ("len takes 1 argument, got " ++ toString args.length))

/-- `builtin_puts`: `print(arg)` for each argument — each line is the
argument's `__str__` (strings therefore print RAW) — then `NULL`. -/
def builtinPuts (args : List Object) (st : Store) : Except PyErr (Object × Store) :=
  Except.ok (NULL, { st with stdout := st.stdout ++ args.map pyStr })

/-- `builtin_input`: with exactly one argument it must be a `String`
prompt; the host `input()` then yields the next standard-input line (the
raw prompt write is not part of the line-oriented `stdout` model).  At end
of input the host raises `EOFError`. -/
def builtinInput (args : List Object) (st : Store) : Except PyErr (Object × Store) :=
  match args with
  | [a] =>
    match a with
    | .String _ =>
      match st.stdin with
      | line :: restIn => Except.ok (.String line, { st with stdin := restIn })
      | [] => Except.error .EOFError
    | _ => Except.error (.TypeError ("Input prompt should be a string, got "
        ++ objectTypeStr a.type))
  | _ =>
    match st.stdin with
    | line :: restIn => Except.ok (.String line, { st with stdin := restIn })
    | [] => Except.error .EOFError

/-- `builtin_first`: arity check, then the `Array` check — which always
fails, `Array` being uninhabited in this tree. -/
def builtinFirst (args : List Object) (st : Store) : Except PyErr (Object × Store) :=
  match args with
  | [a] => Except.error (.TypeError ("first takes an array, got " ++ objectTypeStr a.type))
  | _ => Except.error (.TypeError ("first takes 1 argument, got " ++ toString args.length))

/-- `builtin_last`, as `builtin_first`. -/
def builtinLast (args : List Object) (st : Store) : Except PyErr (Object × Store) :=
  match args with
  | [a] => Except.error (.TypeError ("last takes an array, got " ++ objectTypeStr a.type))
  | _ => Except.error (.TypeError ("last takes 1 argument, got " ++ toString args.length))

/-- `builtin_rest`, as `builtin_first`. -/
def builtinRest (args : List Object) (st : Store) : Except PyErr (Object × Store) :=
  match args with
  | [a] => Except.error (.TypeError ("rest takes an array, got " ++ objectTypeStr a.type))
  | _ => Except.error (.TypeError ("rest takes 1 argument, got " ++ toString args.length))

/-- `builtin_push`: arity check, then the `Array` check on the first
argument — which always fails here. -/
def builtinPush (args : List Object) (st : Store) : Except PyErr (Object × Store) :=
  match args with
  | [a, _] => Except.error (.TypeError ("First argument to push takes an array, got "
      ++ objectTypeStr a.type))
  | _ => Except.error (.TypeError ("push takes 2 arguments, got " ++ toString args.length))

/-- `function.function(*args)` for a `Builtin` value. -/
def applyBuiltin (b : BuiltinName) (args : List Object) (st : Store) :
    Except PyErr (Object × Store) :=
  match b with
  | .len => builtinLen args st
  | .puts => builtinPuts args st
  | .input => builtinInput args st
  | .first => builtinFirst args st
  | .last => builtinLast args st
  | .rest => builtinRest args st
  | .push => builtinPush args st

/-- `is_truthy`: `obj not in (NULL, FALSE)` with dataclass equality — an
object equals `NULL` exactly when it is a `Null` and equals `FALSE`
exactly when it is a `Boolean` with value `False`. -/
def isTruthy : Object → Bool
  | .Null => false
  | .Boolean false => false
  | _ => true

/-- `evaluate_bang_expression`: `right in (FALSE, NULL)` yields `TRUE`,
anything else `FALSE`. -/
def evaluateBangExpression : Object → Object
  | .Boolean false => TRUE
  | .Null => TRUE
  | _ => FALSE

/-- `evaluate_integer_minus_expression`. -/
def evaluateIntegerMinusExpression (v : Int) : Object :=
  Object.Integer (-v)

/-- `evaluate_prefix_expression`: `!` on anything; `-` only on an
`Integer`; otherwise `SyntaxError` with the operand's type tag. -/
def evaluatePrefixExpression (operator : String) (right : Object) : Except PyErr Object :=
  match operator, right with
  | "!", r => Except.ok (evaluateBangExpression r)
  | "-", .Integer v => Except.ok (evaluateIntegerMinusExpression v)
  | _, r => Except.error (.SyntaxError ("Unknown operator: " ++ operator
      ++ objectTypeStr r.type))

/-- The host value sitting in a `value` attribute once it has passed the
`isinstance(..., int | bool | str)` gate of `evaluate_infix_expression`. -/
inductive PyVal where
  | int (n : Int)
  | bool (b : Bool)
  | str (s : String)
deriving DecidableEq, Repr

/-- `getattr(obj, "value", None)` followed by that `isinstance` gate:
`Integer`, `Boolean` and `String` carry a host `int`/`bool`/`str`; a
`ReturnValue` has a `value` attribute but it holds an `Object`, which
fails the gate, and the remaining classes have no `value` attribute at
all — both are `none` here, as both fall to the same error branch. -/
def valueAttr : Object → Option PyVal
  | .Integer n => some (.int n)
  | .Boolean b => some (.bool b)
  | .String s => some (.str s)
  | _ => none

/-- Python `==` between two primitive attribute values.  Python compares
`bool` with `int` numerically (`True == 1`); strings never equal
numbers. -/
def pyEq : PyVal → PyVal → Bool
  | .int a, .int b => a = b
  | .bool a, .bool b => a = b
  | .str a, .str b => a = b
  | .int a, .bool b => a = (if b then (1 : Int) else 0)
  | .bool a, .int b => (if a then (1 : Int) else 0) = b
  | _, _ => false

/-- `evaluate_integer_infix_expression`, on the operands' `value` fields.
Python `//` is floor division and raises `ZeroDivisionError` on a zero
divisor; any unmatched operator leaves `obj = NULL`. -/
def evaluateIntegerInfixExpression (operator : String) (lhs rhs : Int) :
    Except PyErr Object :=
  match operator with
  | "+" => Except.ok (.Integer (lhs + rhs))
  | "-" => Except.ok (.Integer (lhs - rhs))
  | "*" => Except.ok (.Integer (lhs * rhs))
  | "/" =>
    if rhs = 0 then Except.error .ZeroDivisionError
    else Except.ok (.Integer (Int.fdiv lhs rhs))
  | ">" => Except.ok (.Boolean (rhs < lhs))
  | "<" => Except.ok (.Boolean (lhs < rhs))
  | _ => Except.ok NULL

/-- `evaluate_infix_expression`: type-tag mismatch check; the `value`
attribute gate; `==`/`!=` by host equality; `+` on two strings; integer
dispatch; otherwise "Unknown operator". -/
def evaluateInfixExpression (operator : String) (left right : Object) :
    Except PyErr Object :=
  if left.type ≠ right.type then
    Except.error (.TypeError ("Type mismatch: " ++ objectTypeStr left.type ++ " "
      ++ operator ++ " " ++ objectTypeStr right.type))
  else
    match valueAttr left, valueAttr right with
    | some lhs, some rhs =>
      if operator = "==" then Except.ok (.Boolean (pyEq lhs rhs))
      else if operator = "!=" then Except.ok (.Boolean (!pyEq lhs rhs))
      else
        match operator, lhs, rhs with
        | "+", .str a, .str b => Except.ok (.String (a ++ b))
        | _, _, _ =>
          match left, right with
          | .Integer a, .Integer b => evaluateIntegerInfixExpression operator a b
          | _, _ =>
            Except.error (.SyntaxError ("Unknown operator: " ++ objectTypeStr left.type
              ++ " " ++ operator ++ " " ++ objectTypeStr right.type))
    | _, _ =>
      Except.error (.TypeError "Infix expression values must be integers, booleans, or strings")

/-- The parameter-binding loop of the `Function` call case
(`for i, param in enumerate(function.parameters): scope_env[param.value] = args[i]`):
`args[i]` raises `IndexError` when the caller supplied fewer arguments
than there are parameters; surplus arguments are never read. -/
def bindParams : List Identifier → List Object → Nat → Nat → Store → Except PyErr Store
  | [], _, _, _, st => Except.ok st
  | p :: ps, args, env, i, st =>
    match args.get? i with
    | some a => bindParams ps args env (i + 1) (envSet st env p.value a)
    | none => Except.error .IndexError

mutual

/-- The `Expression` arms of `evaluate`, from `monk/evaluator.py`.  Fuel
bounds recursion depth (the Python recursion is bounded only by the host
stack).  Note the `Identifier` arm calls `Environment.get` — the own-frame
lookup — and falls back to the builtin registry, then `NameError`. -/
def evaluateExpr : Nat → Expr → Nat → Store → Except PyErr (Object × Store)
  | 0, _, _, _ => Except.error .FuelExhausted
  | fuel + 1, e, env, st =>
    match e with
    | .IntegerLiteral _ v => Except.ok (.Integer v, st)
    | .StringLiteral _ s => Except.ok (.String s, st)
    | .identifier i =>
      match envGet st env i.value with
      | some v => Except.ok (v, st)
      | none =>
        match builtinsGet i.value with
        | some b => Except.ok (.Builtin b, st)
        | none => Except.error (.NameError ("Unknown identifier " ++ i.value))
    | .BooleanLiteral _ b => Except.ok (if b then TRUE else FALSE, st)
    | .PrefixExpression _ op right => do
        let (r, st) ← evaluateExpr fuel right env st
        let v ← evaluatePrefixExpression op r
        Except.ok (v, st)
    | .InfixExpression _ l op r => do
        let (lv, st) ← evaluateExpr fuel l env st
        let (rv, st) ← evaluateExpr fuel r env st
        let v ← evaluateInfixExpression op lv rv
        Except.ok (v, st)
    | .IfExpression _ cond cons alt => do
        let (cv, st) ← evaluateExpr fuel cond env st
        if isTruthy cv then
          evaluateBlockStatement fuel cons.statements env st
        else
          match alt with
          | some a => evaluateBlockStatement fuel a.statements env st
          | none => Except.ok (NULL, st)
    | .FunctionLiteral _ ps body => Except.ok (.Function ps body env, st)
    | .CallExpression _ fnE argEs => do
        let (fn, st) ← evaluateExpr fuel fnE env st
        let (args, st) ← evaluateExpressions fuel argEs env st
        match fn with
        | .Builtin b => applyBuiltin b args st
        | .Function ps body fenv => applyFunction fuel ps body fenv args st
        | other => Except.error (.TypeError ("Cannot call " ++ objectTypeStr other.type))
  termination_by structural fuel => fuel

/-- The `Statement` arms of `evaluate`: `let` binds in the CURRENT frame
and yields `NULL`; `return` wraps its operand in a `ReturnValue`. -/
def evaluateStmt : Nat → Stmt → Nat → Store → Except PyErr (Object × Store)
  | 0, _, _, _ => Except.error .FuelExhausted
  | fuel + 1, s, env, st =>
    match s with
    | .LetStatement _ name value => do
        let (v, st) ← evaluateExpr fuel value env st
        Except.ok (NULL, envSet st env name.value v)
    | .ReturnStatement _ value => do
        let (v, st) ← evaluateExpr fuel value env st
        Except.ok (.ReturnValue v, st)
    | .ExpressionStatement _ e => evaluateExpr fuel e env st
  termination_by structural fuel => fuel

/-- `evaluate_expressions`: argument list, evaluated left to right. -/
def evaluateExpressions : Nat → List Expr → Nat → Store → Except PyErr (List Object × Store)
  | 0, _, _, _ => Except.error .FuelExhausted
  | fuel + 1, es, env, st =>
    match es with
    | [] => Except.ok ([], st)
    | e :: restE => do
        let (v, st) ← evaluateExpr fuel e env st
        let (vs, st) ← evaluateExpressions fuel restE env st
        Except.ok (v :: vs, st)
  termination_by structural fuel => fuel

/-- The `Function` arm of the `CallExpression` case: a fresh scope whose
outer is the captured environment, positional binding via `bindParams`,
the body evaluated in the new scope, and one `ReturnValue` unwrapped. -/
def applyFunction : Nat → List Identifier → Block → Nat → List Object → Store →
    Except PyErr (Object × Store)
  | 0, _, _, _, _, _ => Except.error .FuelExhausted
  | fuel + 1, ps, body, fenv, args, st => do
    let (scopeEnv, st) := envNew st (some fenv)
    let st ← bindParams ps args scopeEnv 0 st
    let (result, st) ← evaluateBlockStatement fuel body.statements scopeEnv st
    match result with
    | .ReturnValue v => Except.ok (v, st)
    | r => Except.ok (r, st)
  termination_by structural fuel => fuel

/-- `evaluate_program`: statements in order, starting from `Null()`; a
`ReturnValue` short-circuits and is UNWRAPPED (one layer). -/
def evaluateProgramStmts : Nat → List Stmt → Nat → Store → Except PyErr (Object × Store)
  | 0, _, _, _ => Except.error .FuelExhausted
  | fuel + 1, stmts, env, st =>
    match stmts with
    | [] => Except.ok (.Null, st)
    | s :: restS => do
        let (r, st) ← evaluateStmt fuel s env st
        match r with
        | .ReturnValue v => Except.ok (v, st)
        | _ =>
          match restS with
          | [] => Except.ok (r, st)
          | _ => evaluateProgramStmts fuel restS env st
  termination_by structural fuel => fuel

/-- `evaluate_block_statement`: as `evaluate_program`, but a
`ReturnValue` short-circuits WITHOUT unwrapping. -/
def evaluateBlockStatement : Nat → List Stmt → Nat → Store → Except PyErr (Object × Store)
  | 0, _, _, _ => Except.error .FuelExhausted
  | fuel + 1, stmts, env, st =>
    match stmts with
    | [] => Except.ok (.Null, st)
    | s :: restS => do
        let (r, st) ← evaluateStmt fuel s env st
        match r with
        | .ReturnValue v => Except.ok (.ReturnValue v, st)
        | _ =>
          match restS with
          | [] => Except.ok (r, st)
          | _ => evaluateBlockStatement fuel restS env st
  termination_by structural fuel => fuel

end

/-- `evaluate(program, env)`: the `Program` arm dispatches to
`evaluate_program`. -/
def evaluateProgram (fuel : Nat) (p : Program) (env : Nat) (st : Store) :
    Except PyErr (Object × Store) :=
  evaluateProgramStmts fuel p.statements env st

/-- Parse and evaluate a source text in a fresh top-level environment,
yielding the resulting value (the file-mode pipeline of
`monk/__main__.py` up to the final `print`). -/
def interpret (code : String) : Except PyErr Object := do
  let prog ← parse code
  let (v, _) ← evaluateProgram defaultFuel prog 0 emptyStore
  Except.ok v

/-- `run(code, env)` from `monk/__main__.py`: lex, parse, evaluate against
environment 0 of the given store, then `print(result)` — one more stdout
line holding the result's `__str__`. -/
def runLine (code : String) (st : Store) : Except PyErr Store := do
  let prog ← parse code
  let (v, st) ← evaluateProgram defaultFuel prog 0 st
  Except.ok { st with stdout := st.stdout ++ [pyStr v] }

/-! ## Theorems -/

/-- C1: Identifier lookup is claimed to walk the environment chain so
that the closure program
`let newAdder = fn(x) { fn(y) { x + y }; }; let addTwo = newAdder(2); addTwo(3);`
evaluates to Integer 5.  In fact the `Identifier` arm of `evaluate` calls
`Environment.get`, which consults only the innermost frame's own map, so
the captured `x` is never found and the host raises
`NameError("Unknown identifier x")`. -/
theorem C1_closure_lookup_raises :
    interpret ("let newAdder = fn(x) \x7b fn(y) \x7b x + y \x7d; \x7d; "
        ++ "let addTwo = newAdder(2); addTwo(3);") =
      Except.error (PyErr.NameError "Unknown identifier x") := by
  rfl

/-- C2: The round-trip `parse(to_string(parse(source))) == parse(source)`
is claimed for programs without string literals or numeric edge cases.
Already for `return 5;` it fails: `ReturnStatement.__str__` prints
`return 5` without the semicolon that `_parse_return_statement` requires,
so reparsing the printed form raises `SyntaxError`. -/
theorem C2_roundtrip_breaks :
    (parse "return 5;").map programStr = Except.ok "return 5" ∧
    parse "return 5" = Except.error (PyErr.SyntaxError
      "Expected next token to be TokenType.SEMICOLON, got TokenType.END_OF_FILE") := by
  exact ⟨rfl, rfl⟩

/-- C5: The REPL is claimed to print a resulting `String` surrounded by
double quotes while `puts` prints it raw.  In fact `run` ends in
`print(result)`, which uses `String.__str__` — the raw content — so the
REPL line `"hello"` prints `hello`, exactly as `puts` does. -/
theorem C5_repl_prints_strings_raw :
    (runLine "\"hello\"" emptyStore).map Store.stdout = Except.ok ["hello"] ∧
    (builtinPuts [Object.String "hello"] emptyStore).map (fun r => r.2.stdout) =
      Except.ok ["hello"] := by
  exact ⟨rfl, rfl⟩

/-- C7 counterexample: evaluating a `Program` CAN yield a bare
`ReturnValue`: in `return if (true) { return 1; };` the if-block produces
`ReturnValue(1)`, the return statement wraps it again, and the program
boundary unwraps only one layer, so `ReturnValue(Integer 1)` escapes. -/
theorem C7_counterexample :
    interpret "return if (true) \x7b return 1; \x7d;" =
      Except.ok (Object.ReturnValue (Object.Integer 1)) := by
  rfl

/-- C3 counterexample: `/` on Integers is claimed to truncate toward
zero, with `-7 / 2 = -3`; the source computes Python `//`, which floors:
`evaluate_integer_infix_expression` yields `Integer(-4)` here, and
`Integer(-4) ≠ Integer(-3)`. -/
theorem C3_counterexample :
    evaluateIntegerInfixExpression "/" (-7) 2 = Except.ok (Object.Integer (-4)) ∧
    Object.Integer (-4) ≠ Object.Integer (-3) := by
  refine ⟨rfl, fun h => ?_⟩
  injection h with h
  exact absurd h (by decide)

/-- C4 counterexample: calling `fn(x) { 1; }` with no arguments is
claimed to run the body (erroring only on a first USE of the unbound
parameter, hence yielding `Integer 1` here since `x` is never used); the
parameter-binding loop instead raises a host `IndexError` before the body
runs. -/
theorem C4_counterexample :
    interpret "fn(x) \x7b 1; \x7d()" = Except.error PyErr.IndexError ∧
    (Except.error PyErr.IndexError : Except PyErr Object) ≠ Except.ok (Object.Integer 1) := by
  exact ⟨rfl, fun h => Except.noConfusion h⟩

/-- C8 counterexample: an input beginning with `_` is claimed to lex as
an identifier, and no non-ASCII character is claimed to begin an
identifier.  In fact `'_'.isalpha()` is false in Python so `_` falls to
the `ILLEGAL` arm, while the Unicode letter `é` does begin an identifier
token. -/
theorem C8_counterexample :
    lexAll "_" = [⟨TokenType.ILLEGAL, "_"⟩, ⟨TokenType.END_OF_FILE, ""⟩] ∧
    (⟨TokenType.ILLEGAL, "_"⟩ : Token) ≠ ⟨TokenType.IDENTIFIER, "_"⟩ ∧
    lexAll "é" = [⟨TokenType.IDENTIFIER, "é"⟩, ⟨TokenType.END_OF_FILE, ""⟩] := by
  exact ⟨rfl, by decide, rfl⟩

/-- C3 amended: integer `/` is Python floor division — it rounds toward
negative infinity, so for a nonzero divisor the result is
`Integer(lhs // rhs)` with `//` = `Int.fdiv`, and `-7 / 2` evaluates to
`Integer(-4)` (not `-3`). -/
theorem C3_division_floors :
    (∀ lhs rhs : Int, rhs ≠ 0 →
      evaluateIntegerInfixExpression "/" lhs rhs =
        Except.ok (Object.Integer (Int.fdiv lhs rhs))) ∧
    interpret "-7 / 2" = Except.ok (Object.Integer (-4)) := by
  refine ⟨fun lhs rhs h => ?_, rfl⟩
  simp [evaluateIntegerInfixExpression, h]

/-- Witness for C3: `7 / 2` is `3` via the amended statement. -/
theorem C3_division_floors_witness :
    evaluateIntegerInfixExpression "/" 7 2 = Except.ok (Object.Integer 3) :=
  C3_division_floors.1 7 2 (by decide)

/-- C10: `evaluate_integer_infix_expression` guards `/` with nothing, so
a zero right operand raises the host `ZeroDivisionError` (not a Monkey
value or Monkey-level error message), and with a nonzero right operand
the result is always an `Integer`. -/
theorem C10_division_by_zero_unguarded :
    (∀ lhs : Int,
      evaluateIntegerInfixExpression "/" lhs 0 = Except.error PyErr.ZeroDivisionError) ∧
    (∀ lhs rhs : Int, rhs ≠ 0 →
      ∃ n : Int, evaluateIntegerInfixExpression "/" lhs rhs =
        Except.ok (Object.Integer n)) := by
  constructor
  · intro lhs
    simp [evaluateIntegerInfixExpression]
  · intro lhs rhs h
    exact ⟨Int.fdiv lhs rhs, by simp [evaluateIntegerInfixExpression, h]⟩

/-- Witness for C10: `5 / 0` raises; `-7 / 2` yields an Integer. -/
theorem C10_division_by_zero_unguarded_witness :
    evaluateIntegerInfixExpression "/" 5 0 = Except.error PyErr.ZeroDivisionError ∧
    ∃ n : Int, evaluateIntegerInfixExpression "/" (-7) 2 =
      Except.ok (Object.Integer n) :=
  ⟨C10_division_by_zero_unguarded.1 5,
   C10_division_by_zero_unguarded.2 (-7) 2 (by decide)⟩

/-- C9: for `==`/`!=` (indeed any operator) on two operands with the SAME
type tag that is none of `INTEGER`, `BOOLEAN`, `STRING` (e.g. two nulls,
or two function values), `evaluate_infix_expression` reaches the
`isinstance(int | bool | str)` gate with a non-primitive (or absent)
`value` attribute and raises
`TypeError("Infix expression values must be integers, booleans, or strings")` —
no Boolean is produced. -/
theorem C9_same_type_nonprimitive_raises :
    ∀ (operator : String) (l r : Object),
      l.type = r.type →
      l.type ≠ ObjectType.INTEGER →
      l.type ≠ ObjectType.BOOLEAN →
      l.type ≠ ObjectType.STRING →
      evaluateInfixExpression operator l r = Except.error
        (.TypeError "Infix expression values must be integers, booleans, or strings") := by
  intro op l r hty h1 h2 h3
  cases l <;> cases r <;>
    simp_all [Object.type, evaluateInfixExpression, valueAttr]

/-- Witness for C9: `null == null` raises the gate's `TypeError`. -/
theorem C9_same_type_nonprimitive_raises_witness :
    evaluateInfixExpression "==" NULL NULL = Except.error
      (.TypeError "Infix expression values must be integers, booleans, or strings") :=
  C9_same_type_nonprimitive_raises "==" NULL NULL rfl
    (by decide) (by decide) (by decide)

/-- `Except.ok` bind reduction (helper). -/
theorem pyBindOk {α β : Type} (a : α) (f : α → Except PyErr β) :
    (Except.ok a : Except PyErr α) >>= f = f a := rfl

/-- `Except.error` bind reduction (helper). -/
theorem pyBindErr {α β : Type} (e : PyErr) (f : α → Except PyErr β) :
    (Except.error e : Except PyErr α) >>= f = Except.error e := rfl

/-- C6: truthiness in `if` — whenever the condition evaluates to a value
`v` that is neither `NULL` nor `FALSE` (every other value, `Integer 0`
and comparison Booleans included, is truthy), the `IfExpression` arm
evaluates the consequence block; and concretely
`if (0) { 1 } else { 2 }` evaluates to `Integer 1`. -/
theorem C6_truthiness :
    (∀ (v : Object) (fuel : Nat) (tok : Token) (cond : Expr) (cons : Block)
       (alt : Option Block) (env : Nat) (st st' : Store),
       evaluateExpr fuel cond env st = Except.ok (v, st') →
       v ≠ NULL → v ≠ FALSE →
       evaluateExpr (fuel + 1) (Expr.IfExpression tok cond cons alt) env st =
         evaluateBlockStatement fuel cons.statements env st') ∧
    interpret "if (0) \x7b 1 \x7d else \x7b 2 \x7d" = Except.ok (Object.Integer 1) := by
  refine ⟨fun v fuel tok cond cons alt env st st' hc hn hf => ?_, rfl⟩
  have ht : isTruthy v = true := by
    cases v with
    | Boolean b =>
      cases b
      · exact absurd rfl hf
      · rfl
    | Null => exact absurd rfl hn
    | _ => rfl
  simp [evaluateExpr, hc, ht, pyBindOk]

/-- Witness for C6: `Integer 0` as the (already evaluated) condition of
`if (0) [] else …` sends evaluation into the consequence block. -/
theorem C6_truthiness_witness :
    evaluateExpr 2 (Expr.IfExpression ⟨TokenType.IF, "if"⟩
        (Expr.IntegerLiteral ⟨TokenType.INTEGER, "0"⟩ 0)
        (Block.mk ⟨TokenType.LEFT_BRACE, "\x7b"⟩ []) none) 0 emptyStore =
      evaluateBlockStatement 1 [] 0 emptyStore :=
  C6_truthiness.1 (Object.Integer 0) 1 ⟨TokenType.IF, "if"⟩
    (Expr.IntegerLiteral ⟨TokenType.INTEGER, "0"⟩ 0)
    (Block.mk ⟨TokenType.LEFT_BRACE, "\x7b"⟩ []) none 0 emptyStore emptyStore
    rfl (by simp [NULL]) (by simp [FALSE])

/-- C7 amended: the nested-return example `if (10 > 1) { if (10 > 1) {
return 10; } return 1; }` evaluates to `Integer 10`; a `ReturnValue`
produced by a statement propagates intact (unwrapped-but-wrapped) through
a block boundary, and the program boundary unwraps exactly ONE layer and
stops.  (Unchanged from the claim except that the "never a bare
`ReturnValue`" invariant is dropped: a return statement whose operand
itself produces a `ReturnValue` double-wraps, and one layer then escapes
the top level — see the counterexample.) -/
theorem C7_single_unwrap_at_top :
    interpret "if (10 > 1) \x7b if (10 > 1) \x7b return 10; \x7d return 1; \x7d" =
      Except.ok (Object.Integer 10) ∧
    (∀ (fuel : Nat) (s : Stmt) (restS : List Stmt) (env : Nat) (st st' : Store)
       (v : Object),
       evaluateStmt fuel s env st = Except.ok (Object.ReturnValue v, st') →
       evaluateProgramStmts (fuel + 1) (s :: restS) env st = Except.ok (v, st')) ∧
    (∀ (fuel : Nat) (s : Stmt) (restS : List Stmt) (env : Nat) (st st' : Store)
       (v : Object),
       evaluateStmt fuel s env st = Except.ok (Object.ReturnValue v, st') →
       evaluateBlockStatement (fuel + 1) (s :: restS) env st =
         Except.ok (Object.ReturnValue v, st')) := by
  refine ⟨rfl, fun fuel s restS env st st' v h => ?_,
    fun fuel s restS env st st' v h => ?_⟩
  · simp [evaluateProgramStmts, h, pyBindOk]
  · simp [evaluateBlockStatement, h, pyBindOk]

/-- Witness for C7: `return 1;` as the first top-level statement makes
the program yield the unwrapped `Integer 1`, while a block keeps the
`ReturnValue` wrapper. -/
theorem C7_single_unwrap_at_top_witness :
    evaluateProgramStmts 3 [Stmt.ReturnStatement ⟨TokenType.RETURN, "return"⟩
        (Expr.IntegerLiteral ⟨TokenType.INTEGER, "1"⟩ 1)] 0 emptyStore =
      Except.ok (Object.Integer 1, emptyStore) ∧
    evaluateBlockStatement 3 [Stmt.ReturnStatement ⟨TokenType.RETURN, "return"⟩
        (Expr.IntegerLiteral ⟨TokenType.INTEGER, "1"⟩ 1)] 0 emptyStore =
      Except.ok (Object.ReturnValue (Object.Integer 1), emptyStore) :=
  ⟨C7_single_unwrap_at_top.2.1 2 (Stmt.ReturnStatement ⟨TokenType.RETURN, "return"⟩
      (Expr.IntegerLiteral ⟨TokenType.INTEGER, "1"⟩ 1)) [] 0 emptyStore emptyStore
      (Object.Integer 1) rfl,
   C7_single_unwrap_at_top.2.2 2 (Stmt.ReturnStatement ⟨TokenType.RETURN, "return"⟩
      (Expr.IntegerLiteral ⟨TokenType.INTEGER, "1"⟩ 1)) [] 0 emptyStore emptyStore
      (Object.Integer 1) rfl⟩

/-- Helper: `bindParams` reads only the argument positions
`i, i+1, …, i + params.length - 1`. -/
theorem bindParams_congr (ps : List Identifier) :
    ∀ (args args' : List Object) (env i : Nat) (st : Store),
      (∀ j, j < ps.length → args.get? (i + j) = args'.get? (i + j)) →
      bindParams ps args env i st = bindParams ps args' env i st := by
  induction ps with
  | nil => intro args args' env i st _; rfl
  | cons p ps ih =>
    intro args args' env i st h
    have h0 : args.get? i = args'.get? i := by simpa using h 0 (by simp)
    simp only [bindParams, ← h0]
    cases hx : args.get? i with
    | none => rfl
    | some a =>
      exact ih args args' env (i + 1) (envSet st env p.value a)
        (fun j hj => by
          have := h (j + 1) (by simpa using Nat.succ_lt_succ hj)
          simpa [Nat.add_assoc, Nat.add_comm 1 j] using this)

/-- Helper: with fewer remaining arguments than parameters, `bindParams`
hits a missing index and raises `IndexError`. -/
theorem bindParams_short (ps : List Identifier) :
    ∀ (args : List Object) (env i : Nat) (st : Store),
      args.length < i + ps.length → i ≤ args.length →
      bindParams ps args env i st = Except.error PyErr.IndexError := by
  induction ps with
  | nil =>
    intro args env i st h1 h2
    exfalso
    simp only [List.length_nil, Nat.add_zero] at h1
    omega
  | cons p ps ih =>
    intro args env i st h1 h2
    cases hx : args.get? i with
    | none =>
      simp only [bindParams, hx]
    | some a =>
      have hi : i < args.length := by
        by_contra hge
        have hnone : args.get? i = none := List.get?_eq_none.mpr (by omega)
        rw [hnone] at hx
        exact Option.noConfusion hx
      simp only [bindParams, hx]
      exact ih args env (i + 1) (envSet st env p.value a)
        (by simp only [List.length_cons] at h1; omega) (by omega)

/-- C4 amended: when a `Function` is called, arguments beyond the
parameter list are ignored — the call result only depends on the first
`parameters.length` arguments; but when FEWER arguments than parameters
are supplied, the positional binding loop raises a host `IndexError`
before the function body runs (not an identifier-lookup error on first
use). -/
theorem C4_extra_ignored_missing_raises :
    (∀ (fuel : Nat) (ps : List Identifier) (body : Block) (fenv : Nat)
       (args : List Object) (st : Store),
       ps.length ≤ args.length →
       applyFunction fuel ps body fenv args st =
         applyFunction fuel ps body fenv (args.take ps.length) st) ∧
    (∀ (fuel : Nat) (ps : List Identifier) (body : Block) (fenv : Nat)
       (args : List Object) (st : Store),
       args.length < ps.length →
       applyFunction (fuel + 1) ps body fenv args st =
         Except.error PyErr.IndexError) := by
  constructor
  · intro fuel ps body fenv args st _
    cases fuel with
    | zero => rfl
    | succ fuel =>
      simp only [applyFunction]
      have heq := bindParams_congr ps args (args.take ps.length)
        (envNew st (some fenv)).1 0 (envNew st (some fenv)).2
        (fun j hj => by
          rw [List.get?_take (by simpa using hj)])
      rw [heq]
  · intro fuel ps body fenv args st h
    simp only [applyFunction]
    have heq := bindParams_short ps args (envNew st (some fenv)).1 0
      (envNew st (some fenv)).2 (by omega) (by omega)
    rw [heq]
    rfl

/-- Witness for C4: a one-parameter function called with two arguments
behaves as if called with one; called with none, it raises `IndexError`. -/
theorem C4_extra_ignored_missing_raises_witness :
    applyFunction 3 [⟨⟨TokenType.IDENTIFIER, "x"⟩, "x"⟩]
        (Block.mk ⟨TokenType.LEFT_BRACE, "\x7b"⟩ []) 0
        [Object.Integer 1, Object.Integer 2] emptyStore =
      applyFunction 3 [⟨⟨TokenType.IDENTIFIER, "x"⟩, "x"⟩]
        (Block.mk ⟨TokenType.LEFT_BRACE, "\x7b"⟩ []) 0
        [Object.Integer 1] emptyStore ∧
    applyFunction 3 [⟨⟨TokenType.IDENTIFIER, "x"⟩, "x"⟩]
        (Block.mk ⟨TokenType.LEFT_BRACE, "\x7b"⟩ []) 0 [] emptyStore =
      Except.error PyErr.IndexError :=
  ⟨C4_extra_ignored_missing_raises.1 3 [⟨⟨TokenType.IDENTIFIER, "x"⟩, "x"⟩]
      (Block.mk ⟨TokenType.LEFT_BRACE, "\x7b"⟩ []) 0
      [Object.Integer 1, Object.Integer 2] emptyStore (by simp),
   C4_extra_ignored_missing_raises.2 2 [⟨⟨TokenType.IDENTIFIER, "x"⟩, "x"⟩]
      (Block.mk ⟨TokenType.LEFT_BRACE, "\x7b"⟩ []) 0 [] emptyStore (by simp)⟩

/-- Helper: an alphabetic character is not whitespace. -/
theorem pyIsSpace_eq_false_of_alpha (c : Char) (h : pyIsAlpha c = true) :
    pyIsSpace c = false := by
  cases hsp : pyIsSpace c
  · rfl
  · exfalso
    simp only [pyIsSpace, Bool.or_eq_true, decide_eq_true_eq] at hsp
    rcases hsp with ((((rfl | rfl) | rfl) | rfl) | rfl) | rfl <;>
      exact absurd h (by decide)

/-- Helper: an alphabetic character is in no single-char operator slot. -/
theorem singleCharMap_none_of_alpha (c : Char) (h : pyIsAlpha c = true) :
    singleCharTokenTypeMap c = none := by
  have n1 : c ≠ '=' := fun e => absurd h (by subst e; decide)
  have n2 : c ≠ '+' := fun e => absurd h (by subst e; decide)
  have n3 : c ≠ '-' := fun e => absurd h (by subst e; decide)
  have n4 : c ≠ '*' := fun e => absurd h (by subst e; decide)
  have n5 : c ≠ '/' := fun e => absurd h (by subst e; decide)
  have n6 : c ≠ '(' := fun e => absurd h (by subst e; decide)
  have n7 : c ≠ ')' := fun e => absurd h (by subst e; decide)
  have n8 : c ≠ '\x7b' := fun e => absurd h (by subst e; decide)
  have n9 : c ≠ '\x7d' := fun e => absurd h (by subst e; decide)
  have n10 : c ≠ ';' := fun e => absurd h (by subst e; decide)
  have n11 : c ≠ ',' := fun e => absurd h (by subst e; decide)
  have n12 : c ≠ '<' := fun e => absurd h (by subst e; decide)
  have n13 : c ≠ '>' := fun e => absurd h (by subst e; decide)
  have n14 : c ≠ '!' := fun e => absurd h (by subst e; decide)
  simp [singleCharTokenTypeMap, n1, n2, n3, n4, n5, n6, n7, n8, n9, n10,
    n11, n12, n13, n14]

/-- C8 amended: the lexer's identifier tokens are exactly the maximal
runs that begin with a character accepted by the host's Unicode
`str.isalpha` — which EXCLUDES the underscore and INCLUDES non-ASCII
letters — and continue while the next character satisfies `str.isalnum`;
the run is then keyword-promoted by `lookup_ident`.  An input beginning
with `_` lexes as an `ILLEGAL` token, and the non-ASCII letter `é` begins
an `IDENTIFIER` token. -/
theorem C8_identifier_maximal_run :
    (∀ (c : Char) (cs : List Char), pyIsAlpha c = true →
      lexNext (c :: cs) =
        (⟨lookup_ident (String.mk (c :: cs.takeWhile pyIsAlnum)),
          String.mk (c :: cs.takeWhile pyIsAlnum)⟩,
         cs.drop (cs.takeWhile pyIsAlnum).length)) ∧
    lexAll "_" = [⟨TokenType.ILLEGAL, "_"⟩, ⟨TokenType.END_OF_FILE, ""⟩] ∧
    lexAll "é" = [⟨TokenType.IDENTIFIER, "é"⟩, ⟨TokenType.END_OF_FILE, ""⟩] := by
  refine ⟨fun c cs h => ?_, rfl, rfl⟩
  have hs := pyIsSpace_eq_false_of_alpha c h
  have h1 : c ≠ '=' := fun e => absurd h (by subst e; decide)
  have h2 : c ≠ '!' := fun e => absurd h (by subst e; decide)
  have h3 : c ≠ '\"' := fun e => absurd h (by subst e; decide)
  have hm := singleCharMap_none_of_alpha c h
  simp [lexNext, List.dropWhile_cons, hs, h1, h2, h3, hm, h]

/-- Witness for C8: lexing from `ab2 x` produces the maximal identifier
token `ab2` and stops before the space. -/
theorem C8_identifier_maximal_run_witness :
    lexNext ['a', 'b', '2', ' ', 'x'] =
      (⟨TokenType.IDENTIFIER, "ab2"⟩, [' ', 'x']) :=
  C8_identifier_maximal_run.1 'a' ['b', '2', ' ', 'x'] (by decide)
